import Mathlib

/-!
Verification of the nitrate program-support library.

The development shallowly embeds the three parts of the code the claims
are about:

* `Nitrate` — the per-record borrow-state tracker and the guarded access
  operations of `src/program/src/account_info.rs` (`AccountInfo`,
  `Ref`/`RefMut` drop, `realloc`), modelled as pure state transformers on
  a `Record` structure;
* `Nitrate.Deser` — the input-buffer walk of `src/program/src/lib.rs`
  (`deserialize`), modelled over a byte memory `Nat → Nat`;
* `Nitrate.Cpi` — the instruction builders of `src/program/src/cpi.rs`
  and `src/program/src/system.rs` (`_create_account_signed`).

Machine bytes are `Nat` with an explicit `% 256` where the source uses
`u8` arithmetic; `u64`/`usize` values stay `Nat` because no operation on
them can overflow on the paths the claims exercise.
-/

set_option maxRecDepth 16384

namespace Nitrate

/-- A 32-byte public key, kept as its raw byte list. -/
abbrev Pubkey := List Nat

/-- The `Account` header of `account_info.rs` plus the data region that
follows it in buffer memory.  `borrow_state` is the u8 access-grant
bitfield (high nibble lamports, low nibble data; within a nibble the top
bit is the exclusive flag and the low three bits the shared counter).
`data` gives the byte at each index of the region that starts right
after the header (the region extends past `data_len` into the host
growth reserve, hence a total function). -/
structure Record where
  borrow_state : Nat
  is_signer : Bool
  is_writable : Bool
  executable : Bool
  original_data_len : Nat
  key : Pubkey
  owner : Pubkey
  lamports : Nat
  data_len : Nat
  data : Nat → Nat

/-- Errors surfaced by the guarded operations: `AccountBorrowFailed` is
the spec's `BorrowConflict`, `InvalidRealloc` the spec's
`ReallocTooLarge`. -/
inductive ProgramError where
  | AccountBorrowFailed
  | InvalidRealloc
deriving DecidableEq, Repr

/-- `LAMPORTS_SHIFT` from `account_info.rs`. -/
def LAMPORTS_SHIFT : Nat := 4

/-- `DATA_SHIFT` from `account_info.rs`. -/
def DATA_SHIFT : Nat := 0

/-- `LAMPORTS_MASK` (`0b0111_1111`) from `account_info.rs`. -/
def LAMPORTS_MASK : Nat := 0x7F

/-- `DATA_MASK` (`0b1111_0111`) from `account_info.rs`. -/
def DATA_MASK : Nat := 0xF7

/-- `solana_program::entrypoint::MAX_PERMITTED_DATA_INCREASE` (10 KiB). -/
def MAX_PERMITTED_DATA_INCREASE : Nat := 10240

/-- Byte-level logic of `AccountInfo::try_borrow_lamports`: fail if the
lamports exclusive bit (`0b1000_0000`) is set or the lamports shared
counter (`0b0111_0000`) is saturated, else add `1 <<< LAMPORTS_SHIFT`
(u8 add, hence the `% 256`). -/
def sharedLamportsByte (b : Nat) : Option Nat :=
  if b &&& 0x80 ≠ 0 then none
  else if b &&& 0x70 = 0x70 then none
  else some ((b + (1 <<< LAMPORTS_SHIFT)) % 256)

/-- Byte-level logic of `AccountInfo::try_borrow_mut_lamports`: fail if
any lamports borrow (`0b1111_0000`) is outstanding, else set the
exclusive bit. -/
def exclusiveLamportsByte (b : Nat) : Option Nat :=
  if b &&& 0xF0 ≠ 0 then none else some (b ||| 0x80)

/-- Byte-level logic of `AccountInfo::try_borrow_data`: fail if the data
exclusive bit (`0b0000_1000`) is set or the data shared counter
(`0b0111`) is saturated, else add 1. -/
def sharedDataByte (b : Nat) : Option Nat :=
  if b &&& 8 ≠ 0 then none
  else if b &&& 7 = 7 then none
  else some ((b + 1) % 256)

/-- Byte-level logic of `AccountInfo::try_borrow_mut_data`: fail if any
data borrow (`0b0000_1111`) is outstanding, else set the exclusive
bit. -/
def exclusiveDataByte (b : Nat) : Option Nat :=
  if b &&& 0xF ≠ 0 then none else some (b ||| 8)

/-- `Ref::drop`: subtract `1 <<< shift` from the borrow byte (u8
wrapping subtraction). -/
def refDropByte (shift : Nat) (b : Nat) : Nat := (b + 256 - (1 <<< shift)) % 256

/-- `RefMut::drop`: clear the exclusive bit through the stored mask. -/
def refMutDropByte (mask : Nat) (b : Nat) : Nat := b &&& mask

/-- `AccountInfo::try_borrow_lamports` as a state transformer on the
record; the returned record is the state with the guard outstanding. -/
def try_borrow_lamports (a : Record) : Except ProgramError Record :=
  match sharedLamportsByte a.borrow_state with
  | none => .error .AccountBorrowFailed
  | some b => .ok { a with borrow_state := b }

/-- `AccountInfo::try_borrow_mut_lamports` as a state transformer. -/
def try_borrow_mut_lamports (a : Record) : Except ProgramError Record :=
  match exclusiveLamportsByte a.borrow_state with
  | none => .error .AccountBorrowFailed
  | some b => .ok { a with borrow_state := b }

/-- `AccountInfo::try_borrow_data` as a state transformer. -/
def try_borrow_data (a : Record) : Except ProgramError Record :=
  match sharedDataByte a.borrow_state with
  | none => .error .AccountBorrowFailed
  | some b => .ok { a with borrow_state := b }

/-- `AccountInfo::try_borrow_mut_data` as a state transformer. -/
def try_borrow_mut_data (a : Record) : Except ProgramError Record :=
  match exclusiveDataByte a.borrow_state with
  | none => .error .AccountBorrowFailed
  | some b => .ok { a with borrow_state := b }

/-- Releasing a read guard (`Ref::drop`) for the resource encoded by
`shift`. -/
def refDrop (shift : Nat) (a : Record) : Record :=
  { a with borrow_state := refDropByte shift a.borrow_state }

/-- Releasing a write guard (`RefMut::drop`) for the resource encoded by
`mask`. -/
def refMutDrop (mask : Nat) (a : Record) : Record :=
  { a with borrow_state := refMutDropByte mask a.borrow_state }

/-- `n` successive shared-data acquisitions at byte level. -/
def sharedDataByteN : Nat → Nat → Option Nat
  | 0, b => some b
  | n + 1, b =>
    match sharedDataByteN n b with
    | none => none
    | some b2 => sharedDataByte b2

/-- `n` successive shared-lamports acquisitions at byte level. -/
def sharedLamportsByteN : Nat → Nat → Option Nat
  | 0, b => some b
  | n + 1, b =>
    match sharedLamportsByteN n b with
    | none => none
    | some b2 => sharedLamportsByte b2

section BorrowByteLemmas

/-- After a successful shared-data acquisition, an exclusive-data request
fails, and releasing the shared guard restores the byte. -/
theorem sharedDataByte_spec : ∀ b < 256, sharedDataByte b ≠ none →
    exclusiveDataByte ((sharedDataByte b).getD 0) = none ∧
    refDropByte DATA_SHIFT ((sharedDataByte b).getD 0) = b := by decide

/-- After a successful shared-lamports acquisition, an exclusive-lamports
request fails, and releasing the shared guard restores the byte. -/
theorem sharedLamportsByte_spec : ∀ b < 256, sharedLamportsByte b ≠ none →
    exclusiveLamportsByte ((sharedLamportsByte b).getD 0) = none ∧
    refDropByte LAMPORTS_SHIFT ((sharedLamportsByte b).getD 0) = b := by decide

/-- Releasing a write guard restores the byte taken by a successful
exclusive-data acquisition. -/
theorem exclusiveDataByte_spec : ∀ b < 256, exclusiveDataByte b ≠ none →
    refMutDropByte DATA_MASK ((exclusiveDataByte b).getD 0) = b := by decide

/-- Releasing a write guard restores the byte taken by a successful
exclusive-lamports acquisition. -/
theorem exclusiveLamportsByte_spec : ∀ b < 256, exclusiveLamportsByte b ≠ none →
    refMutDropByte LAMPORTS_MASK ((exclusiveLamportsByte b).getD 0) = b := by
  decide

/-- Exclusive-data request at byte level: fails exactly on a nonzero data
nibble, else sets the exclusive bit. -/
theorem exclusiveDataByte_char : ∀ b < 256,
    (b &&& 0xF ≠ 0 → exclusiveDataByte b = none) ∧
    (b &&& 0xF = 0 → exclusiveDataByte b = some (b ||| 8)) := by decide

/-- Exclusive-lamports request at byte level: fails exactly on a nonzero
lamports nibble, else sets the exclusive bit. -/
theorem exclusiveLamportsByte_char : ∀ b < 256,
    (b &&& 0xF0 ≠ 0 → exclusiveLamportsByte b = none) ∧
    (b &&& 0xF0 = 0 → exclusiveLamportsByte b = some (b ||| 0x80)) := by decide

/-- Shared-data request at byte level: fails exactly when the exclusive
bit is set or the counter is 7, else increments the counter. -/
theorem sharedDataByte_char : ∀ b < 256,
    (b &&& 8 ≠ 0 ∨ b &&& 7 = 7 → sharedDataByte b = none) ∧
    (b &&& 8 = 0 → b &&& 7 ≠ 7 → sharedDataByte b = some (b + 1)) := by decide

/-- Shared-lamports request at byte level: fails exactly when the
exclusive bit is set or the counter is 7, else increments the counter. -/
theorem sharedLamportsByte_char : ∀ b < 256,
    (b &&& 0x80 ≠ 0 ∨ b &&& 0x70 = 0x70 → sharedLamportsByte b = none) ∧
    (b &&& 0x80 = 0 → b &&& 0x70 ≠ 0x70 →
      sharedLamportsByte b = some (b + 16)) := by decide

/-- From a data nibble of zero: 7 shared-data acquisitions succeed, the
8th fails, and after releasing one a new acquisition succeeds again. -/
theorem sharedDataByte_seven : ∀ b < 256, b &&& 0xF = 0 →
    sharedDataByteN 7 b = some (b + 7) ∧
    sharedDataByteN 8 b = none ∧
    sharedDataByte (refDropByte DATA_SHIFT (b + 7)) = some (b + 7) := by decide

/-- From a lamports nibble of zero: 7 shared-lamports acquisitions
succeed, the 8th fails, and after releasing one a new acquisition
succeeds again. -/
theorem sharedLamportsByte_seven : ∀ b < 256, b &&& 0xF0 = 0 →
    sharedLamportsByteN 7 b = some (b + 112) ∧
    sharedLamportsByteN 8 b = none ∧
    sharedLamportsByte (refDropByte LAMPORTS_SHIFT (b + 112)) =
      some (b + 112) := by decide

end BorrowByteLemmas

/-- C1, stated over a record: an exclusive request for a resource fails
exactly while its nibble is nonzero, succeeds (setting the exclusive
bit) once it is zero, and in particular fails right after a shared
acquisition and behaves as before once that shared guard is dropped. -/
def C1Prop (a : Record) : Prop :=
  (a.borrow_state &&& 0xF0 ≠ 0 →
    try_borrow_mut_lamports a = .error .AccountBorrowFailed) ∧
  (a.borrow_state &&& 0xF0 = 0 →
    try_borrow_mut_lamports a =
      .ok { a with borrow_state := a.borrow_state ||| 0x80 }) ∧
  (a.borrow_state &&& 0xF ≠ 0 →
    try_borrow_mut_data a = .error .AccountBorrowFailed) ∧
  (a.borrow_state &&& 0xF = 0 →
    try_borrow_mut_data a =
      .ok { a with borrow_state := a.borrow_state ||| 8 }) ∧
  (∀ a1, try_borrow_data a = .ok a1 →
    try_borrow_mut_data a1 = .error .AccountBorrowFailed ∧
    try_borrow_mut_data (refDrop DATA_SHIFT a1) = try_borrow_mut_data a) ∧
  (∀ a1, try_borrow_lamports a = .ok a1 →
    try_borrow_mut_lamports a1 = .error .AccountBorrowFailed ∧
    try_borrow_mut_lamports (refDrop LAMPORTS_SHIFT a1) =
      try_borrow_mut_lamports a)

/-- C1: for every record and each resource, an exclusive request fails
with a borrow conflict while any guard for that resource is outstanding
and succeeds once the resource's guards are all released. -/
theorem c1_exclusive_borrow (a : Record) (h : a.borrow_state < 256) :
    C1Prop a := by
  refine ⟨?_, ?_, ?_, ?_, ?_, ?_⟩
  · intro h1
    unfold try_borrow_mut_lamports
    rw [(exclusiveLamportsByte_char a.borrow_state h).1 h1]
  · intro h1
    unfold try_borrow_mut_lamports
    rw [(exclusiveLamportsByte_char a.borrow_state h).2 h1]
  · intro h1
    unfold try_borrow_mut_data
    rw [(exclusiveDataByte_char a.borrow_state h).1 h1]
  · intro h1
    unfold try_borrow_mut_data
    rw [(exclusiveDataByte_char a.borrow_state h).2 h1]
  · intro a1 h1
    unfold try_borrow_data at h1
    rcases hb : sharedDataByte a.borrow_state with _ | b2
    · rw [hb] at h1; exact absurd h1 (by simp)
    · rw [hb] at h1
      have hspec := sharedDataByte_spec a.borrow_state h (by simp [hb])
      rw [hb] at hspec
      simp only [Option.getD_some] at hspec
      have ha1 : a1 = { a with borrow_state := b2 } := by
        simpa using h1.symm
      subst ha1
      constructor
      · unfold try_borrow_mut_data
        rw [show ({ a with borrow_state := b2 } : Record).borrow_state = b2
              from rfl, hspec.1]
      · have hrestore : refDrop DATA_SHIFT { a with borrow_state := b2 } = a := by
          unfold refDrop
          rw [show ({ a with borrow_state := b2 } : Record).borrow_state = b2
                from rfl, hspec.2]
        rw [hrestore]
  · intro a1 h1
    unfold try_borrow_lamports at h1
    rcases hb : sharedLamportsByte a.borrow_state with _ | b2
    · rw [hb] at h1; exact absurd h1 (by simp)
    · rw [hb] at h1
      have hspec := sharedLamportsByte_spec a.borrow_state h (by simp [hb])
      rw [hb] at hspec
      simp only [Option.getD_some] at hspec
      have ha1 : a1 = { a with borrow_state := b2 } := by
        simpa using h1.symm
      subst ha1
      constructor
      · unfold try_borrow_mut_lamports
        rw [show ({ a with borrow_state := b2 } : Record).borrow_state = b2
              from rfl, hspec.1]
      · have hrestore :
            refDrop LAMPORTS_SHIFT { a with borrow_state := b2 } = a := by
          unfold refDrop
          rw [show ({ a with borrow_state := b2 } : Record).borrow_state = b2
                from rfl, hspec.2]
        rw [hrestore]

/-- A concrete idle record used to instantiate the borrow theorems. -/
def record0 : Record :=
  { borrow_state := 0, is_signer := false, is_writable := true,
    executable := false, original_data_len := 4,
    key := List.replicate 32 1, owner := List.replicate 32 2,
    lamports := 5, data_len := 4, data := fun _ => 7 }

/-- Witness for C1 at the idle record. -/
theorem c1_exclusive_borrow_witness :
    record0.borrow_state < 256 ∧ C1Prop record0 :=
  ⟨by decide, c1_exclusive_borrow record0 (by decide)⟩

/-- C2, stated over a record: a shared request fails exactly when the
resource's exclusive bit is set or its counter is 7, otherwise
increments the counter; from an idle resource 7 shared guards succeed,
the 8th fails, and releasing one permits a new one. -/
def C2Prop (a : Record) : Prop :=
  (a.borrow_state &&& 0x80 ≠ 0 ∨ a.borrow_state &&& 0x70 = 0x70 →
    try_borrow_lamports a = .error .AccountBorrowFailed) ∧
  (a.borrow_state &&& 0x80 = 0 → a.borrow_state &&& 0x70 ≠ 0x70 →
    try_borrow_lamports a =
      .ok { a with borrow_state := a.borrow_state + 16 }) ∧
  (a.borrow_state &&& 8 ≠ 0 ∨ a.borrow_state &&& 7 = 7 →
    try_borrow_data a = .error .AccountBorrowFailed) ∧
  (a.borrow_state &&& 8 = 0 → a.borrow_state &&& 7 ≠ 7 →
    try_borrow_data a =
      .ok { a with borrow_state := a.borrow_state + 1 }) ∧
  (a.borrow_state &&& 0xF = 0 →
    sharedDataByteN 7 a.borrow_state = some (a.borrow_state + 7) ∧
    sharedDataByteN 8 a.borrow_state = none ∧
    sharedDataByte (refDropByte DATA_SHIFT (a.borrow_state + 7)) =
      some (a.borrow_state + 7)) ∧
  (a.borrow_state &&& 0xF0 = 0 →
    sharedLamportsByteN 7 a.borrow_state = some (a.borrow_state + 112) ∧
    sharedLamportsByteN 8 a.borrow_state = none ∧
    sharedLamportsByte (refDropByte LAMPORTS_SHIFT (a.borrow_state + 112)) =
      some (a.borrow_state + 112))

/-- C2: a shared-guard request fails with a borrow conflict exactly when
the resource's exclusive bit is set or 7 shared guards are outstanding,
and otherwise increments the shared counter; up to 7 concurrent shared
guards succeed, the 8th fails, and releasing one permits a new one. -/
theorem c2_shared_borrow (a : Record) (h : a.borrow_state < 256) :
    C2Prop a := by
  refine ⟨?_, ?_, ?_, ?_, sharedDataByte_seven a.borrow_state h,
    sharedLamportsByte_seven a.borrow_state h⟩
  · intro h1
    unfold try_borrow_lamports
    rw [(sharedLamportsByte_char a.borrow_state h).1 h1]
  · intro h1 h2
    unfold try_borrow_lamports
    rw [(sharedLamportsByte_char a.borrow_state h).2 h1 h2]
  · intro h1
    unfold try_borrow_data
    rw [(sharedDataByte_char a.borrow_state h).1 h1]
  · intro h1 h2
    unfold try_borrow_data
    rw [(sharedDataByte_char a.borrow_state h).2 h1 h2]

/-- Witness for C2 at the idle record. -/
theorem c2_shared_borrow_witness :
    record0.borrow_state < 256 ∧ C2Prop record0 :=
  ⟨by decide, c2_shared_borrow record0 (by decide)⟩

/-- C3, stated over a record: each of the four acquire operations, when
it succeeds, is undone exactly by the corresponding guard release,
restoring the whole record (borrow state and every other field). -/
def C3Prop (a : Record) : Prop :=
  (∀ a1, try_borrow_data a = .ok a1 → refDrop DATA_SHIFT a1 = a) ∧
  (∀ a1, try_borrow_lamports a = .ok a1 → refDrop LAMPORTS_SHIFT a1 = a) ∧
  (∀ a1, try_borrow_mut_data a = .ok a1 → refMutDrop DATA_MASK a1 = a) ∧
  (∀ a1, try_borrow_mut_lamports a = .ok a1 →
    refMutDrop LAMPORTS_MASK a1 = a)

/-- C3: acquiring a guard and then releasing it restores `borrow_state`
to exactly its prior value and leaves every other field of the record
unchanged. -/
theorem c3_acquire_release_roundtrip (a : Record)
    (h : a.borrow_state < 256) : C3Prop a := by
  refine ⟨?_, ?_, ?_, ?_⟩
  · intro a1 h1
    unfold try_borrow_data at h1
    rcases hb : sharedDataByte a.borrow_state with _ | b2
    · rw [hb] at h1; exact absurd h1 (by simp)
    · rw [hb] at h1
      have hspec := (sharedDataByte_spec a.borrow_state h (by simp [hb])).2
      rw [hb] at hspec
      simp only [Option.getD_some] at hspec
      have ha1 : a1 = { a with borrow_state := b2 } := by simpa using h1.symm
      subst ha1
      unfold refDrop
      rw [show ({ a with borrow_state := b2 } : Record).borrow_state = b2
            from rfl, hspec]
  · intro a1 h1
    unfold try_borrow_lamports at h1
    rcases hb : sharedLamportsByte a.borrow_state with _ | b2
    · rw [hb] at h1; exact absurd h1 (by simp)
    · rw [hb] at h1
      have hspec := (sharedLamportsByte_spec a.borrow_state h (by simp [hb])).2
      rw [hb] at hspec
      simp only [Option.getD_some] at hspec
      have ha1 : a1 = { a with borrow_state := b2 } := by simpa using h1.symm
      subst ha1
      unfold refDrop
      rw [show ({ a with borrow_state := b2 } : Record).borrow_state = b2
            from rfl, hspec]
  · intro a1 h1
    unfold try_borrow_mut_data at h1
    rcases hb : exclusiveDataByte a.borrow_state with _ | b2
    · rw [hb] at h1; exact absurd h1 (by simp)
    · rw [hb] at h1
      have hspec := exclusiveDataByte_spec a.borrow_state h (by simp [hb])
      rw [hb] at hspec
      simp only [Option.getD_some] at hspec
      have ha1 : a1 = { a with borrow_state := b2 } := by simpa using h1.symm
      subst ha1
      unfold refMutDrop
      rw [show ({ a with borrow_state := b2 } : Record).borrow_state = b2
            from rfl, hspec]
  · intro a1 h1
    unfold try_borrow_mut_lamports at h1
    rcases hb : exclusiveLamportsByte a.borrow_state with _ | b2
    · rw [hb] at h1; exact absurd h1 (by simp)
    · rw [hb] at h1
      have hspec := exclusiveLamportsByte_spec a.borrow_state h (by simp [hb])
      rw [hb] at hspec
      simp only [Option.getD_some] at hspec
      have ha1 : a1 = { a with borrow_state := b2 } := by simpa using h1.symm
      subst ha1
      unfold refMutDrop
      rw [show ({ a with borrow_state := b2 } : Record).borrow_state = b2
            from rfl, hspec]

/-- Witness for C3 at the idle record. -/
theorem c3_acquire_release_roundtrip_witness :
    record0.borrow_state < 256 ∧ C3Prop record0 :=
  ⟨by decide, c3_acquire_release_roundtrip record0 (by decide)⟩

/-- `AccountInfo::realloc`.  The source first takes the exclusive data
guard (dropped again on every exit path that returns, hence the
`refMutDrop` on each returned value), returns `Ok` untouched when the
length is unchanged, fails with `InvalidRealloc` when the growth over
`original_data_len` exceeds the host ceiling (`saturating_sub` is `Nat`
subtraction), and otherwise stores `new_len` through the pointer 8
bytes before the data region — which under the `repr(C)` layout is
exactly the `data_len` field.  With `zero_init` and a positive
`len_increase = new_len - current_len` it evaluates
`&mut data[original_data_len..]` on the recreated length-`new_len`
slice: when `original_data_len > new_len` that indexing panics and the
invocation aborts without returning, modelled as `none`; otherwise
`sol_memset` sets `len_increase` bytes starting at index
`original_data_len` of the data region (the on-target syscall does not
re-check the slice length).  A returning call yields
`some (result, final record)`. -/
def realloc (a : Record) (new_len : Nat) (zero_init : Bool) :
    Option (Except ProgramError Unit × Record) :=
  match try_borrow_mut_data a with
  | .error e => some (.error e, a)
  | .ok a1 =>
    if new_len = a1.data_len then some (.ok (), refMutDrop DATA_MASK a1)
    else if MAX_PERMITTED_DATA_INCREASE < new_len - a1.original_data_len then
      some (.error .InvalidRealloc, refMutDrop DATA_MASK a1)
    else
      if zero_init then
        if 0 < new_len - a1.data_len then
          if a1.original_data_len ≤ new_len then
            some (.ok (), refMutDrop DATA_MASK
              { a1 with
                data_len := new_len,
                data := fun i =>
                  if a1.original_data_len ≤ i ∧
                      i < a1.original_data_len + (new_len - a1.data_len) then 0
                  else a1.data i })
          else none
        else some (.ok (), refMutDrop DATA_MASK { a1 with data_len := new_len })
      else some (.ok (), refMutDrop DATA_MASK { a1 with data_len := new_len })

/-- Setting the data exclusive bit and clearing it again restores a byte
whose data nibble is free. -/
theorem refMutDropByte_orr : ∀ b < 256, b &&& 0xF = 0 →
    refMutDropByte DATA_MASK (b ||| 8) = b := by decide

/-- On a record with no outstanding data guard, a successful exclusive
data acquisition yields the record with the exclusive bit set. -/
theorem try_borrow_mut_data_free (a : Record) (h : a.borrow_state < 256)
    (h1 : a.borrow_state &&& 0xF = 0) :
    try_borrow_mut_data a = .ok { a with borrow_state := a.borrow_state ||| 8 } := by
  unfold try_borrow_mut_data
  rw [(exclusiveDataByte_char a.borrow_state h).2 h1]

/-- A record that was shrunk below its serialized length within the
invocation: `original_data_len = 4`, currently holding 1 byte, the data
region reading 7 throughout. -/
def record4 : Record :=
  { borrow_state := 0, is_signer := false, is_writable := true,
    executable := false, original_data_len := 4,
    key := List.replicate 32 1, owner := List.replicate 32 2,
    lamports := 5, data_len := 1, data := fun _ => 7 }

/-- C4 fails on the code at a within-ceiling request: regrowing
`record4` to 3 bytes (`3 - original_data_len` saturates to 0, well
within the ceiling) with zero-fill requested evaluates
`&mut data[original_data_len..]` with `original_data_len = 4` greater
than the recreated slice's length 3, which panics and aborts the
invocation (`none`) instead of succeeding with `data_len = new_len`.
The same call without zero-fill returns successfully and the same
record grown past the ceiling fails with the realloc error leaving the
record unchanged, isolating the abort to the zero-fill slice-indexing
slip. -/
theorem c4_realloc_zero_fill_abort :
    realloc record4 3 true = none ∧
    record4.data_len = 1 ∧ record4.original_data_len = 4 ∧
    3 - record4.original_data_len ≤ MAX_PERMITTED_DATA_INCREASE ∧
    realloc record4 3 false = some (.ok (), { record4 with data_len := 3 }) ∧
    realloc record4 20000 true = some (.error .InvalidRealloc, record4) := by
  exact ⟨rfl, by decide, by decide, by decide, rfl, rfl⟩

/-- A record that was shrunk within the invocation: serialized with
2 data bytes (`original_data_len = 2`), currently holding 1
(`data_len = 1`), with the whole data region (stale bytes included)
reading 7. -/
def record5 : Record :=
  { borrow_state := 0, is_signer := false, is_writable := true,
    executable := false, original_data_len := 2,
    key := List.replicate 32 1, owner := List.replicate 32 2,
    lamports := 5, data_len := 1, data := fun _ => 7 }

/-- C5 fails on the code: regrowing `record5` to 3 bytes with zero-fill
requested succeeds (the `.ok` first component certifies the call
returned, since the `getD` default is an error), but the newly-exposed
range is the bytes at indices 1 and 2, of which index 1 (the stale
byte) keeps its old value 7, while the bytes at indices 2 and 3 are
zeroed — index 3 lying outside the 3-byte data region.  The code zeroes
`new_len - current_len` bytes starting at `original_data_len` instead
of zeroing from the previous length. -/
theorem c5_zero_fill_bug :
    ((realloc record5 3 true).getD (.error .InvalidRealloc, record5)).1 = .ok () ∧
    ((realloc record5 3 true).getD (.error .InvalidRealloc, record5)).2.data_len = 3 ∧
    record5.original_data_len = 2 ∧ record5.data_len = 1 ∧
    ((realloc record5 3 true).getD (.error .InvalidRealloc, record5)).2.data 1 = 7 ∧
    ((realloc record5 3 true).getD (.error .InvalidRealloc, record5)).2.data 2 = 0 ∧
    ((realloc record5 3 true).getD (.error .InvalidRealloc, record5)).2.data 3 = 0 := by
  refine ⟨rfl, by decide, by decide, by decide, by decide, by decide, by decide⟩

/-- Clearing the data exclusive bit of a guard-holding record whose
`data_len` was overwritten restores the original borrow byte and keeps
the new length. -/
theorem refMutDrop_set_len (a : Record) (h : a.borrow_state < 256)
    (h1 : a.borrow_state &&& 0xF = 0) (n : Nat) :
    refMutDrop DATA_MASK
        { a with borrow_state := a.borrow_state ||| 8, data_len := n } =
      { a with data_len := n } := by
  unfold refMutDrop
  rw [show ({ a with borrow_state := a.borrow_state ||| 8, data_len := n }
        : Record).borrow_state = a.borrow_state ||| 8 from rfl,
    refMutDropByte_orr a.borrow_state h h1]

/-- C6 as amended: a same-length `realloc` returns success at once and
leaves the record untouched, while a shrinking `realloc` succeeds and
rewrites `data_len` (the serialized length field) to `new_len`, touching
nothing else. -/
def C6Prop (a : Record) : Prop :=
  (∀ zi, realloc a a.data_len zi = some (.ok (), a)) ∧
  (∀ new_len zi, new_len < a.data_len →
    realloc a new_len zi = some (.ok (), { a with data_len := new_len }))

/-- C6 (amended): the no-op case returns immediately with the record
unchanged; the shrinking case succeeds but updates `data_len` to the
smaller `new_len` rather than leaving it unchanged. -/
theorem c6_realloc_shrink_noop (a : Record) (h : a.borrow_state < 256)
    (h1 : a.borrow_state &&& 0xF = 0)
    (h2 : a.data_len ≤ a.original_data_len + MAX_PERMITTED_DATA_INCREASE) :
    C6Prop a := by
  have hb := try_borrow_mut_data_free a h h1
  have hdrop :
      refMutDrop DATA_MASK { a with borrow_state := a.borrow_state ||| 8 } = a := by
    unfold refMutDrop
    rw [show ({ a with borrow_state := a.borrow_state ||| 8 } : Record).borrow_state
          = a.borrow_state ||| 8 from rfl, refMutDropByte_orr a.borrow_state h h1]
  constructor
  · intro zi
    unfold realloc
    rw [hb]
    simp only [if_pos (show a.data_len =
        ({ a with borrow_state := a.borrow_state ||| 8 } : Record).data_len
      from rfl), hdrop]
    exact if_pos trivial
  · intro new_len zi hlt
    unfold realloc
    rw [hb]
    simp only [if_neg (show ¬ new_len =
        ({ a with borrow_state := a.borrow_state ||| 8 } : Record).data_len
      from Nat.ne_of_lt hlt),
      if_neg (show ¬ MAX_PERMITTED_DATA_INCREASE < new_len -
        ({ a with borrow_state := a.borrow_state ||| 8 } : Record).original_data_len
      from by
        have : new_len < a.data_len := hlt
        simp only [show ({ a with borrow_state := a.borrow_state ||| 8 }
          : Record).original_data_len = a.original_data_len from rfl]
        omega)]
    have hz : ¬ 0 < new_len -
        ({ a with borrow_state := a.borrow_state ||| 8 } : Record).data_len := by
      simp only [show ({ a with borrow_state := a.borrow_state ||| 8 }
        : Record).data_len = a.data_len from rfl]
      omega
    simp only [if_neg hz, ite_self, refMutDrop_set_len a h h1 new_len]

/-- Witness for the amended C6 at the idle record. -/
theorem c6_realloc_shrink_noop_witness :
    (record0.borrow_state < 256 ∧ record0.borrow_state &&& 0xF = 0 ∧
      record0.data_len ≤ record0.original_data_len +
        MAX_PERMITTED_DATA_INCREASE) ∧ C6Prop record0 :=
  ⟨by decide, c6_realloc_shrink_noop record0 (by decide) (by decide) (by decide)⟩

/-- C6 as stated is false: shrinking `record0` (4 data bytes) to 2 bytes
succeeds but does not leave `data_len` unchanged — it rewrites it to
2. -/
theorem c6_shrink_counterexample :
    ((realloc record0 2 false).getD (.error .InvalidRealloc, record0)).1 = .ok () ∧
    ((realloc record0 2 false).getD (.error .InvalidRealloc, record0)).2.data_len = 2 ∧
    record0.data_len = 4 ∧
    ((realloc record0 2 false).getD (.error .InvalidRealloc, record0)).2.data_len ≠
      record0.data_len := by
  refine ⟨rfl, by decide, by decide, by decide⟩

namespace Deser

/-! Shallow embedding of `deserialize` from `src/program/src/lib.rs`.
The host input buffer is a byte memory `Mem : Nat → Nat`; a `Handle`
(`AccountInfo`) is the address of the `Account` header it points at,
which for a non-duplicate slot is the address of the slot's marker byte
(the marker byte is reused as `borrow_state`). -/

/-- Byte memory: the value of the input buffer at each offset. -/
abbrev Mem := Nat → Nat

/-- `solana_program::entrypoint::NON_DUP_MARKER` (`u8::MAX`). -/
def NON_DUP_MARKER : Nat := 255

/-- `solana_program::entrypoint::BPF_ALIGN_OF_U128`. -/
def BPF_ALIGN_OF_U128 : Nat := 16

/-- `size_of::<Account>()` under the `repr(C)` layout of
`account_info.rs`: 4 flag bytes, a `u32`, two 32-byte keys, a `u64` and
a `usize`. -/
def accountHeaderSize : Nat := 88

/-- Byte offset of the `data_len` field inside the `Account` header. -/
def dataLenFieldOff : Nat := 80

/-- Little-endian read of `n` bytes at `off`. -/
def readLE (m : Mem) : Nat → Nat → Nat
  | _, 0 => 0
  | off, n + 1 => m off + 256 * readLE m (off + 1) n

/-- Little-endian `u64` read at `off`. -/
def readU64 (m : Mem) (off : Nat) : Nat := readLE m off 8

/-- `align_offset` of a byte pointer at address `off` for alignment
`a`. -/
def alignPad (off a : Nat) : Nat := (a - off % a) % a

/-- The scan-offset advance for one account slot starting at `off`: a
non-duplicate slot covers the header, `data_len` bytes of data, the host
growth reserve, padding to the next 16-byte boundary and the 8-byte rent
field; a duplicate slot covers 8 bytes. -/
def slotAdvance (m : Mem) (off : Nat) : Nat :=
  if m off = NON_DUP_MARKER then
    let o1 := off + accountHeaderSize + readU64 m (off + dataLenFieldOff) +
      MAX_PERMITTED_DATA_INCREASE
    o1 + alignPad o1 BPF_ALIGN_OF_U128 + 8
  else off + 8

/-- State of the materializing loop: the (possibly mutated) buffer, the
scan offset, and the handles produced so far in slot order. -/
structure DeserState where
  mem : Mem
  off : Nat
  accounts : List Nat

/-- One iteration of the first `deserialize` loop.  A non-duplicate slot
reinterprets the bytes at the current offset as an `Account` header,
resets its `borrow_state` (the byte at the slot address) to zero and
appends a handle to that address; a duplicate slot appends a copy of the
handle at the index given by the marker byte and advances by 8. -/
def processSlot (s : DeserState) : DeserState :=
  if s.mem s.off = NON_DUP_MARKER then
    { mem := fun x => if x = s.off then 0 else s.mem x,
      off := slotAdvance s.mem s.off,
      accounts := s.accounts ++ [s.off] }
  else
    { mem := s.mem, off := slotAdvance s.mem s.off,
      accounts := s.accounts ++ [s.accounts.getD (s.mem s.off) 0] }

/-- `n` iterations of the first loop. -/
def deserLoop1 : Nat → DeserState → DeserState
  | 0, s => s
  | n + 1, s => processSlot (deserLoop1 n s)

/-- `n` iterations of the second (skip-only) loop, which advances the
offset without materializing handles or touching memory. -/
def deserLoop2 (m : Mem) : Nat → Nat → Nat
  | 0, off => off
  | n + 1, off => slotAdvance m (deserLoop2 m n off)

/-- The loop state at entry: pristine buffer, offset just past the
8-byte account count, no handles. -/
def initState (input : Mem) : DeserState :=
  { mem := input, off := 8, accounts := [] }

/-- The loop state after the first `i` slots have been processed. -/
def deserState (input : Mem) (i : Nat) : DeserState :=
  deserLoop1 i (initState input)

/-- Result of `deserialize`: final buffer contents, handles, handle
count, and the addresses and length delimiting the instruction payload
and the program identifier. -/
structure DeserResult where
  mem : Mem
  accounts : List Nat
  count : Nat
  dataOff : Nat
  dataLen : Nat
  programIdOff : Nat

/-- The number of accounts `deserialize` materializes: the total from
the buffer's count field, capped at `MAX`. -/
def deserCount (MAX : Nat) (input : Mem) : Nat :=
  if readU64 input 0 ≤ MAX then readU64 input 0 else MAX

/-- The scan offset after both loops: the first loop's end state,
advanced over the `total - count` remaining slots by the skip loop. -/
def deserFinalOff (MAX : Nat) (input : Mem) : Nat :=
  deserLoop2 (deserState input (deserCount MAX input)).mem
    (readU64 input 0 - deserCount MAX input)
    (deserState input (deserCount MAX input)).off

/-- `deserialize` over a buffer holding `total` accounts: materialize
`min total MAX` handles, skip the remaining slots to keep the offset in
sync, then read the payload length, the payload and the program
identifier. -/
def deserialize (MAX : Nat) (input : Mem) : DeserResult :=
  { mem := (deserState input (deserCount MAX input)).mem,
    accounts := (deserState input (deserCount MAX input)).accounts,
    count := deserCount MAX input,
    dataOff := deserFinalOff MAX input + 8,
    dataLen := readU64 (deserState input (deserCount MAX input)).mem
      (deserFinalOff MAX input),
    programIdOff := deserFinalOff MAX input + 8 +
      readU64 (deserState input (deserCount MAX input)).mem
        (deserFinalOff MAX input) }

/-- End of the account section: the offset reached by scanning every
slot of the buffer uniformly from offset 8. -/
def accountsSectionEnd (input : Mem) : Nat :=
  deserLoop2 input (readU64 input 0) 8

/-- A slot advance moves the offset by at least 8 bytes. -/
theorem slotAdvance_ge (m : Mem) (off : Nat) : off + 8 ≤ slotAdvance m off := by
  unfold slotAdvance
  split
  · simp only []
    omega
  · omega

/-- `processSlot` only writes the byte at the current offset. -/
theorem processSlot_mem_ne (s : DeserState) (x : Nat) (hx : x ≠ s.off) :
    (processSlot s).mem x = s.mem x := by
  unfold processSlot
  split
  · simp [hx]
  · rfl

/-- The offset after `processSlot` is `slotAdvance` of the current
state. -/
theorem processSlot_off (s : DeserState) :
    (processSlot s).off = slotAdvance s.mem s.off := by
  unfold processSlot
  split <;> rfl

/-- `processSlot` moves the offset forward by at least 8. -/
theorem processSlot_off_ge (s : DeserState) : s.off + 8 ≤ (processSlot s).off := by
  rw [processSlot_off]
  exact slotAdvance_ge s.mem s.off

/-- `processSlot` appends exactly one handle. -/
theorem processSlot_accounts_len (s : DeserState) :
    (processSlot s).accounts.length = s.accounts.length + 1 := by
  unfold processSlot
  split <;> simp

/-- The first loop's offset never decreases. -/
theorem deserLoop1_off_ge (n : Nat) (s : DeserState) :
    s.off ≤ (deserLoop1 n s).off := by
  induction n with
  | zero => exact Nat.le_refl _
  | succ n ih =>
    calc s.off ≤ (deserLoop1 n s).off := ih
      _ ≤ (processSlot (deserLoop1 n s)).off := by
          have := processSlot_off_ge (deserLoop1 n s); omega

/-- The first loop produces one handle per iteration. -/
theorem deserLoop1_accounts_len (n : Nat) (s : DeserState) :
    (deserLoop1 n s).accounts.length = s.accounts.length + n := by
  induction n with
  | zero => rfl
  | succ n ih =>
    show (processSlot (deserLoop1 n s)).accounts.length = _
    rw [processSlot_accounts_len, ih]
    omega

/-- Memory at or past the final offset is untouched by the first loop. -/
theorem deserLoop1_mem_high (n : Nat) (s : DeserState) (x : Nat)
    (hx : (deserLoop1 n s).off ≤ x) : (deserLoop1 n s).mem x = s.mem x := by
  induction n with
  | zero => rfl
  | succ n ih =>
    show (processSlot (deserLoop1 n s)).mem x = s.mem x
    have hge := processSlot_off_ge (deserLoop1 n s)
    have hx2 : (processSlot (deserLoop1 n s)).off ≤ x := hx
    rw [processSlot_mem_ne (deserLoop1 n s) x (by omega)]
    exact ih (by omega)

/-- Memory strictly below the starting offset is untouched by the first
loop. -/
theorem deserLoop1_mem_low (n : Nat) (s : DeserState) (x : Nat)
    (hx : x < s.off) : (deserLoop1 n s).mem x = s.mem x := by
  induction n with
  | zero => rfl
  | succ n ih =>
    show (processSlot (deserLoop1 n s)).mem x = s.mem x
    have := deserLoop1_off_ge n s
    rw [processSlot_mem_ne (deserLoop1 n s) x (by omega)]
    exact ih

/-- Composing runs of the first loop. -/
theorem deserLoop1_add (a b : Nat) (s : DeserState) :
    deserLoop1 (a + b) s = deserLoop1 a (deserLoop1 b s) := by
  induction a with
  | zero => simp [deserLoop1, Nat.zero_add]
  | succ a ih =>
    rw [show a + 1 + b = (a + b) + 1 by omega]
    show processSlot (deserLoop1 (a + b) s) = processSlot (deserLoop1 a (deserLoop1 b s))
    rw [ih]

/-- Little-endian reads only depend on the bytes at and past `off`. -/
theorem readLE_congr (m m2 : Mem) (base : Nat)
    (h : ∀ x, base ≤ x → m x = m2 x) :
    ∀ n off, base ≤ off → readLE m off n = readLE m2 off n := by
  intro n
  induction n with
  | zero => intro off _; rfl
  | succ n ih =>
    intro off hoff
    unfold readLE
    rw [h off hoff, ih (off + 1) (by omega)]

/-- A slot advance only depends on the bytes at and past `off`. -/
theorem slotAdvance_congr (m m2 : Mem) (off : Nat)
    (h : ∀ x, off ≤ x → m x = m2 x) :
    slotAdvance m off = slotAdvance m2 off := by
  unfold slotAdvance readU64
  rw [h off (Nat.le_refl off),
    readLE_congr m m2 off h 8 (off + dataLenFieldOff) (by omega)]

/-- The second loop never decreases the offset. -/
theorem deserLoop2_ge (m : Mem) (n off : Nat) : off ≤ deserLoop2 m n off := by
  induction n with
  | zero => exact Nat.le_refl _
  | succ n ih =>
    show off ≤ slotAdvance m (deserLoop2 m n off)
    have := slotAdvance_ge m (deserLoop2 m n off)
    omega

/-- The second loop only depends on the bytes at and past its starting
offset. -/
theorem deserLoop2_congr (m m2 : Mem) (off : Nat)
    (h : ∀ x, off ≤ x → m x = m2 x) :
    ∀ n, deserLoop2 m n off = deserLoop2 m2 n off := by
  intro n
  induction n with
  | zero => rfl
  | succ n ih =>
    show slotAdvance m (deserLoop2 m n off) = slotAdvance m2 (deserLoop2 m2 n off)
    rw [← ih]
    exact slotAdvance_congr m m2 (deserLoop2 m n off)
      (fun x hx => h x (Nat.le_trans (deserLoop2_ge m n off) hx))

/-- Composing runs of the second loop. -/
theorem deserLoop2_add (m : Mem) (a b : Nat) (off : Nat) :
    deserLoop2 m (a + b) off = deserLoop2 m a (deserLoop2 m b off) := by
  induction a with
  | zero => simp [deserLoop2, Nat.zero_add]
  | succ a ih =>
    rw [show a + 1 + b = (a + b) + 1 by omega]
    show slotAdvance m (deserLoop2 m (a + b) off) = _
    rw [ih]
    rfl

/-- The first loop advances the offset exactly as a uniform scan of the
same number of slots over the starting memory: the borrow-state resets
all land strictly below the scan point and never affect it. -/
theorem deserLoop1_off_eq_loop2 (n : Nat) (s : DeserState) :
    (deserLoop1 n s).off = deserLoop2 s.mem n s.off := by
  induction n with
  | zero => rfl
  | succ n ih =>
    show (processSlot (deserLoop1 n s)).off = slotAdvance s.mem (deserLoop2 s.mem n s.off)
    rw [processSlot_off, ← ih]
    exact slotAdvance_congr (deserLoop1 n s).mem s.mem (deserLoop1 n s).off
      (fun x hx => deserLoop1_mem_high n s x hx)

/-- The first loop only ever appends handles. -/
theorem deserLoop1_accounts_ext (n : Nat) (s : DeserState) :
    ∃ t, (deserLoop1 n s).accounts = s.accounts ++ t := by
  induction n with
  | zero => exact ⟨[], by simp [deserLoop1]⟩
  | succ n ih =>
    obtain ⟨t, ht⟩ := ih
    show ∃ t2, (processSlot (deserLoop1 n s)).accounts = s.accounts ++ t2
    unfold processSlot
    split
    · exact ⟨t ++ [(deserLoop1 n s).off], by rw [ht, List.append_assoc]⟩
    · refine ⟨t ++ [(deserLoop1 n s).accounts.getD
        ((deserLoop1 n s).mem (deserLoop1 n s).off) 0], ?_⟩
      rw [ht, List.append_assoc]

/-- Handles already produced keep their position and value. -/
theorem deserLoop1_accounts_getD (n : Nat) (s : DeserState) (k : Nat)
    (hk : k < s.accounts.length) :
    (deserLoop1 n s).accounts.getD k 0 = s.accounts.getD k 0 := by
  obtain ⟨t, ht⟩ := deserLoop1_accounts_ext n s
  rw [ht]
  rw [List.getD_append _ _ _ _ hk]

/-- Reading back the handle just appended. -/
theorem getD_append_len (l : List Nat) (v : Nat) (k : Nat)
    (hk : k = l.length) : (l ++ [v]).getD k 0 = v := by
  subst hk
  rw [List.getD_append_right _ _ _ _ (Nat.le_refl _)]
  simp

/-- The handle count of the state after `i` slots is `i`. -/
theorem deserState_accounts_len (input : Mem) (i : Nat) :
    (deserState input i).accounts.length = i := by
  unfold deserState
  rw [deserLoop1_accounts_len]
  simp [initState]

/-- Stepping the slot loop once. -/
theorem deserState_succ (input : Mem) (i : Nat) :
    deserState input (i + 1) = processSlot (deserState input i) := rfl

/-- The count returned by `deserialize`. -/
theorem deserialize_count (MAX : Nat) (input : Mem) :
    (deserialize MAX input).count = deserCount MAX input := by
  unfold deserialize
  dsimp only

/-- The handles returned by `deserialize` are the first loop's. -/
theorem deserialize_accounts (MAX : Nat) (input : Mem) :
    (deserialize MAX input).accounts =
      (deserState input (deserCount MAX input)).accounts := by
  unfold deserialize
  dsimp only

/-- The final memory returned by `deserialize` is the first loop's. -/
theorem deserialize_mem (MAX : Nat) (input : Mem) :
    (deserialize MAX input).mem =
      (deserState input (deserCount MAX input)).mem := by
  unfold deserialize
  dsimp only

/-- The produced count never exceeds the total slot count. -/
theorem deserCount_le (MAX : Nat) (input : Mem) :
    deserCount MAX input ≤ readU64 input 0 := by
  unfold deserCount
  split
  · exact Nat.le_refl _
  · omega

/-- C7: a duplicate marker `j` at slot `i` (with `j < i`, both
materialized) makes the handle at slot `i` identical to the handle at
slot `j` — the same record address, so a write through one is visible
through the other — and advances the scan offset by exactly 8 bytes. -/
theorem c7_duplicate_alias (MAX : Nat) (input : Mem) (i j : Nat)
    (hi : i < (deserialize MAX input).count)
    (hm : (deserState input i).mem ((deserState input i).off) = j)
    (hnd : j ≠ NON_DUP_MARKER) (hj : j < i) :
    (deserialize MAX input).accounts.getD i 0 =
      (deserialize MAX input).accounts.getD j 0 ∧
    (deserState input (i + 1)).off = (deserState input i).off + 8 := by
  have hlen : (deserState input i).accounts.length = i :=
    deserState_accounts_len input i
  have haccs : (deserState input (i + 1)).accounts =
      (deserState input i).accounts ++
        [(deserState input i).accounts.getD j 0] := by
    rw [deserState_succ]
    unfold processSlot
    rw [if_neg (by rw [hm]; exact hnd), hm]
  have hoff : (deserState input (i + 1)).off = (deserState input i).off + 8 := by
    rw [deserState_succ, processSlot_off]
    unfold slotAdvance
    rw [if_neg (by rw [hm]; exact hnd)]
  refine ⟨?_, hoff⟩
  rw [deserialize_count] at hi
  rw [deserialize_accounts]
  have hsplit : deserState input (deserCount MAX input) =
      deserLoop1 (deserCount MAX input - (i + 1)) (deserState input (i + 1)) := by
    unfold deserState
    rw [← deserLoop1_add]
    rw [show deserCount MAX input - (i + 1) + (i + 1) = deserCount MAX input
      by omega]
  have hlen2 : (deserState input (i + 1)).accounts.length = i + 1 :=
    deserState_accounts_len input (i + 1)
  rw [hsplit, deserLoop1_accounts_getD _ _ i (by omega),
    deserLoop1_accounts_getD _ _ j (by omega), haccs,
    getD_append_len _ _ i hlen.symm, List.getD_append _ _ _ _ (by omega)]

/-- The payload-length field of `deserialize`. -/
theorem deserialize_dataLen (MAX : Nat) (input : Mem) :
    (deserialize MAX input).dataLen =
      readU64 (deserState input (deserCount MAX input)).mem
        (deserFinalOff MAX input) := by
  unfold deserialize
  dsimp only

/-- The payload address of `deserialize`. -/
theorem deserialize_dataOff (MAX : Nat) (input : Mem) :
    (deserialize MAX input).dataOff = deserFinalOff MAX input + 8 := by
  unfold deserialize
  dsimp only

/-- The program-identifier address of `deserialize`. -/
theorem deserialize_programIdOff (MAX : Nat) (input : Mem) :
    (deserialize MAX input).programIdOff = deserFinalOff MAX input + 8 +
      readU64 (deserState input (deserCount MAX input)).mem
        (deserFinalOff MAX input) := by
  unfold deserialize
  dsimp only

/-- The offset after the first loop, as a uniform scan over the pristine
buffer. -/
theorem deserState_off_eq (input : Mem) (n : Nat) :
    (deserState input n).off = deserLoop2 input n 8 := by
  unfold deserState
  have h := deserLoop1_off_eq_loop2 n (initState input)
  simpa [initState] using h

/-- Bytes at or past the scan offset still hold their pristine buffer
value after any number of materializing iterations. -/
theorem deserState_mem_high (input : Mem) (n : Nat) (x : Nat)
    (hx : (deserState input n).off ≤ x) : (deserState input n).mem x = input x := by
  unfold deserState at hx ⊢
  exact deserLoop1_mem_high n (initState input) x hx

/-- The final scan offset equals the end of the account section: the
skip loop continues exactly where the materializing loop stopped, and
the borrow-state resets never touch the bytes it reads. -/
theorem deserFinalOff_eq (MAX : Nat) (input : Mem) :
    deserFinalOff MAX input = accountsSectionEnd input := by
  unfold deserFinalOff accountsSectionEnd
  rw [deserLoop2_congr (deserState input (deserCount MAX input)).mem input
      (deserState input (deserCount MAX input)).off
      (deserState_mem_high input (deserCount MAX input))
      (readU64 input 0 - deserCount MAX input)]
  rw [deserState_off_eq]
  rw [← deserLoop2_add]
  rw [Nat.sub_add_cancel (deserCount_le MAX input)]

/-- C8, stated over a buffer: `deserialize` produces
`min total declared-maximum` handles, in host order with each
non-duplicate handle addressing its slot's serialized header, and the
payload and program-identifier positions are computed from the offset
at the end of the whole account section of the pristine buffer. -/
def C8Prop (MAX : Nat) (input : Mem) : Prop :=
  (deserialize MAX input).count = min (readU64 input 0) MAX ∧
  (deserialize MAX input).accounts.length = (deserialize MAX input).count ∧
  (deserialize MAX input).dataLen = readU64 input (accountsSectionEnd input) ∧
  (deserialize MAX input).dataOff = accountsSectionEnd input + 8 ∧
  (deserialize MAX input).programIdOff =
    accountsSectionEnd input + 8 + readU64 input (accountsSectionEnd input) ∧
  (∀ i, i < (deserialize MAX input).count →
    (deserState input i).mem ((deserState input i).off) = NON_DUP_MARKER →
    (deserialize MAX input).accounts.getD i 0 = (deserState input i).off)

/-- C8: deserialization produces exactly `min(total, MAX)` handles in
host order matching the serialized headers, and even when slots are
skipped it keeps advancing the offset so that the payload and the
program identifier are exactly the bytes after the account section. -/
theorem c8_deserialize_layout (MAX : Nat) (input : Mem) : C8Prop MAX input := by
  have hlen : readU64 (deserState input (deserCount MAX input)).mem
      (deserFinalOff MAX input) = readU64 input (accountsSectionEnd input) := by
    unfold readU64
    rw [readLE_congr (deserState input (deserCount MAX input)).mem input
        (deserState input (deserCount MAX input)).off
        (deserState_mem_high input (deserCount MAX input))
        8 (deserFinalOff MAX input)
        (by unfold deserFinalOff; exact deserLoop2_ge _ _ _)]
    rw [deserFinalOff_eq]
  refine ⟨?_, ?_, ?_, ?_, ?_, ?_⟩
  · rw [deserialize_count]
    unfold deserCount
    rw [Nat.min_def]
  · rw [deserialize_accounts, deserialize_count]
    exact deserState_accounts_len input _
  · rw [deserialize_dataLen, hlen]
  · rw [deserialize_dataOff, deserFinalOff_eq]
  · rw [deserialize_programIdOff, hlen, deserFinalOff_eq]
  · intro i hi hm
    rw [deserialize_count] at hi
    rw [deserialize_accounts]
    have hl : (deserState input i).accounts.length = i :=
      deserState_accounts_len input i
    have haccs : (deserState input (i + 1)).accounts =
        (deserState input i).accounts ++ [(deserState input i).off] := by
      rw [deserState_succ]
      unfold processSlot
      rw [if_pos hm]
    have hsplit : deserState input (deserCount MAX input) =
        deserLoop1 (deserCount MAX input - (i + 1)) (deserState input (i + 1)) := by
      unfold deserState
      rw [← deserLoop1_add]
      rw [show deserCount MAX input - (i + 1) + (i + 1) = deserCount MAX input
        by omega]
    have hlen2 : (deserState input (i + 1)).accounts.length = i + 1 :=
      deserState_accounts_len input (i + 1)
    rw [hsplit, deserLoop1_accounts_getD _ _ i (by omega), haccs,
      getD_append_len _ _ i hl.symm]

/-- C9: every non-duplicate slot's record has its `borrow_state` byte
reset to zero at materialization time — before the handle for that slot
is appended — and it is still zero in the state handed to user code. -/
theorem c9_borrow_state_reset (MAX : Nat) (input : Mem) (i : Nat)
    (hi : i < (deserialize MAX input).count)
    (hm : (deserState input i).mem ((deserState input i).off) = NON_DUP_MARKER) :
    (deserState input (i + 1)).mem ((deserState input i).off) = 0 ∧
    (deserState input (i + 1)).accounts.getD i 0 = (deserState input i).off ∧
    (deserialize MAX input).mem ((deserState input i).off) = 0 := by
  rw [deserialize_count] at hi
  have hl : (deserState input i).accounts.length = i :=
    deserState_accounts_len input i
  have hmem1 : (deserState input (i + 1)).mem ((deserState input i).off) = 0 := by
    rw [deserState_succ]
    unfold processSlot
    rw [if_pos hm]
    dsimp only
    rw [if_pos rfl]
  have haccs : (deserState input (i + 1)).accounts.getD i 0 =
      (deserState input i).off := by
    have he : (deserState input (i + 1)).accounts =
        (deserState input i).accounts ++ [(deserState input i).off] := by
      rw [deserState_succ]
      unfold processSlot
      rw [if_pos hm]
    rw [he, getD_append_len _ _ i hl.symm]
  have hoffgt : (deserState input i).off < (deserState input (i + 1)).off := by
    have h2 := processSlot_off_ge (deserState input i)
    rw [← deserState_succ] at h2
    omega
  have hsplit : deserState input (deserCount MAX input) =
      deserLoop1 (deserCount MAX input - (i + 1)) (deserState input (i + 1)) := by
    unfold deserState
    rw [← deserLoop1_add]
    rw [show deserCount MAX input - (i + 1) + (i + 1) = deserCount MAX input
      by omega]
  refine ⟨hmem1, haccs, ?_⟩
  rw [deserialize_mem, hsplit,
    deserLoop1_mem_low _ _ _ hoffgt]
  exact hmem1

/-- A concrete two-account buffer: slot 0 is a non-duplicate account
with zero-length data (marker byte 255 at offset 8, header otherwise
zero), slot 1 is a duplicate of slot 0 (marker byte 0 at offset 10344),
followed by a 1-byte payload (length field at 10352, payload byte 42 at
10360) and an all-zero program identifier. -/
def bufW : Mem := fun n =>
  if n = 0 then 2
  else if n = 8 then 255
  else if n = 10352 then 1
  else if n = 10360 then 42
  else 0

/-- Witness for C7 on the concrete buffer: slot 1 duplicates slot 0. -/
theorem c7_duplicate_alias_witness :
    (1 < (deserialize 2 bufW).count ∧
      (deserState bufW 1).mem ((deserState bufW 1).off) = 0 ∧
      (0 : Nat) ≠ NON_DUP_MARKER ∧ 0 < 1) ∧
    ((deserialize 2 bufW).accounts.getD 1 0 =
        (deserialize 2 bufW).accounts.getD 0 0 ∧
      (deserState bufW 2).off = (deserState bufW 1).off + 8) :=
  ⟨⟨by decide, by decide, by decide, by decide⟩,
   c7_duplicate_alias 2 bufW 1 0 (by decide) (by decide) (by decide) (by decide)⟩

/-- Witness for C8 on the concrete buffer, instantiating the per-slot
conjunct at the non-duplicate slot 0. -/
theorem c8_deserialize_layout_witness :
    (0 < (deserialize 2 bufW).count ∧
      (deserState bufW 0).mem ((deserState bufW 0).off) = NON_DUP_MARKER) ∧
    (deserialize 2 bufW).accounts.getD 0 0 = (deserState bufW 0).off :=
  ⟨⟨by decide, by decide⟩,
   (c8_deserialize_layout 2 bufW).2.2.2.2.2 0 (by decide) (by decide)⟩

/-- Witness for C9 on the concrete buffer at slot 0. -/
theorem c9_borrow_state_reset_witness :
    (0 < (deserialize 2 bufW).count ∧
      (deserState bufW 0).mem ((deserState bufW 0).off) = NON_DUP_MARKER) ∧
    ((deserState bufW 1).mem ((deserState bufW 0).off) = 0 ∧
      (deserState bufW 1).accounts.getD 0 0 = (deserState bufW 0).off ∧
      (deserialize 2 bufW).mem ((deserState bufW 0).off) = 0) :=
  ⟨⟨by decide, by decide⟩,
   c9_borrow_state_reset 2 bufW 0 (by decide) (by decide)⟩

end Deser

namespace Cpi

/-! Shallow embedding of the invocation marshaller of
`src/program/src/cpi.rs` and the create-account builder of
`src/program/src/system.rs`.  An `AccountInfo` is the address (`raw`) of
its record in the buffer memory; the pointer fields of the C structs are
kept as addresses computed exactly as the `offset(account.raw, k)` calls
in the source, and the boolean flags are read from the flag bytes of the
header (`is_signer` at `raw + 1`, `is_writable` at `raw + 2`,
`executable` at `raw + 3`). -/

/-- `CAccountMeta`: the access descriptor handed to the host. -/
structure CAccountMeta where
  pubkey : Nat
  is_writable : Bool
  is_signer : Bool
deriving DecidableEq, Repr

/-- `CAccountInfo`: the full account snapshot handed to the host. -/
structure CAccountInfo where
  key : Nat
  lamports : Nat
  data_len : Nat
  data : Nat
  owner : Nat
  rent_epoch : Nat
  is_signer : Bool
  is_writable : Bool
  executable : Bool
deriving DecidableEq, Repr

/-- `impl From<&AccountInfo> for CAccountMeta`: key address is
`raw + 8`, flags are the account's own flags. -/
def toMeta (m : Deser.Mem) (raw : Nat) : CAccountMeta :=
  { pubkey := raw + 8,
    is_writable := m (raw + 2) != 0,
    is_signer := m (raw + 1) != 0 }

/-- `impl From<&AccountInfo> for CAccountInfo`: all addresses point into
the original buffer (`key` at `raw + 8`, `owner` at `raw + 40`,
`lamports` at `raw + 72`, data region at `raw + 88`), `rent_epoch` is
zero, and the flags are the account's own flags. -/
def toInfo (m : Deser.Mem) (raw : Nat) : CAccountInfo :=
  { key := raw + 8,
    lamports := raw + 72,
    data_len := Deser.readU64 m (raw + 80),
    data := raw + 88,
    owner := raw + 40,
    rent_epoch := 0,
    is_signer := m (raw + 1) != 0,
    is_writable := m (raw + 2) != 0,
    executable := m (raw + 3) != 0 }

/-- `CInstruction`: program id bytes, access descriptors and payload. -/
structure CInstruction where
  program_id : List Nat
  accounts : List CAccountMeta
  data : List Nat
deriving DecidableEq, Repr

/-- The system program identifier (32 zero bytes). -/
def systemProgramId : List Nat := List.replicate 32 0

/-- The little-endian bytes of `u64::to_le_bytes`. -/
def u64le (x : Nat) : List Nat :=
  [x % 256, x / 256 % 256, x / 65536 % 256, x / 16777216 % 256,
   x / 4294967296 % 256, x / 1099511627776 % 256,
   x / 281474976710656 % 256, x / 72057594037927936 % 256]

/-- The 52-byte create-account payload: 4-byte zero discriminator,
little-endian lamports at 4..12, little-endian space at 12..20, owner
bytes at 20..52. -/
def createAccountData (lamports space : Nat) (owner : List Nat) : List Nat :=
  [0, 0, 0, 0] ++ u64le lamports ++ u64le space ++ owner

/-- Everything `_create_account_signed` passes to the host call:
the instruction descriptor and the account-snapshot list. -/
structure CreateAccountCall where
  instruction : CInstruction
  account_infos : List CAccountInfo
deriving DecidableEq, Repr

/-- `_create_account_signed`: two access descriptors (funder, then new
account with its `is_signer` forced to `true`), the 52-byte payload, and
two account snapshots converted without any flag adjustment. -/
def create_account_signed (m : Deser.Mem) (funder account : Nat)
    (lamports space : Nat) (owner : List Nat) : CreateAccountCall :=
  { instruction :=
      { program_id := systemProgramId,
        accounts := [toMeta m funder, { toMeta m account with is_signer := true }],
        data := createAccountData lamports space owner },
    account_infos := [toInfo m funder, toInfo m account] }

/-- A placeholder access descriptor for out-of-range list reads. -/
def dummyMeta : CAccountMeta :=
  { pubkey := 0, is_writable := false, is_signer := false }

/-- A placeholder snapshot for out-of-range list reads. -/
def dummyInfo : CAccountInfo :=
  { key := 0, lamports := 0, data_len := 0, data := 0, owner := 0,
    rent_epoch := 0, is_signer := false, is_writable := false,
    executable := false }

/-- A buffer in which every byte is zero: in particular the account at
address 200 has `is_signer = false`. -/
def memZero : Deser.Mem := fun _ => 0

/-- C10 as stated is false: with funder at address 0 and a new account
at address 200 whose original signer flag is false, the
account-snapshot list entry for the new account carries `is_signer =
false` — the synthesized `true` flag appears only on the
access-descriptor (account-meta) list. -/
theorem c10_snapshot_signer_counterexample :
    ((create_account_signed memZero 0 200 5 7
        (List.replicate 32 3)).account_infos.getD 1 dummyInfo).is_signer ≠ true ∧
    ((create_account_signed memZero 0 200 5 7
        (List.replicate 32 3)).instruction.accounts.getD 1 dummyMeta).is_signer =
      true := by
  refine ⟨by decide, by decide⟩

/-- C10 as amended, stated over a buffer and two account addresses: the
builder produces a 52-byte payload with the zero discriminator, the
little-endian lamports at 4..12, the little-endian space at 12..20 and
the owner bytes at 20..52; the access-descriptor list forces the new
account's signer flag to `true` regardless of its original flag, while
the account-snapshot list keeps both accounts' original flags. -/
def C10Prop (m : Deser.Mem) (funder account lamports space : Nat)
    (owner : List Nat) : Prop :=
  (create_account_signed m funder account lamports space owner).instruction.data.length = 52 ∧
  (create_account_signed m funder account lamports space owner).instruction.data.take 4 =
    [0, 0, 0, 0] ∧
  ((create_account_signed m funder account lamports space owner).instruction.data.drop 4).take 8 =
    u64le lamports ∧
  ((create_account_signed m funder account lamports space owner).instruction.data.drop 12).take 8 =
    u64le space ∧
  (create_account_signed m funder account lamports space owner).instruction.data.drop 20 =
    owner ∧
  ((create_account_signed m funder account lamports space owner).instruction.accounts.getD 1 dummyMeta).is_signer =
    true ∧
  (create_account_signed m funder account lamports space owner).instruction.accounts.getD 0 dummyMeta =
    toMeta m funder ∧
  (create_account_signed m funder account lamports space owner).account_infos.getD 0 dummyInfo =
    toInfo m funder ∧
  (create_account_signed m funder account lamports space owner).account_infos.getD 1 dummyInfo =
    toInfo m account

/-- C10 (amended): the payload layout is as claimed and the synthesized
signer flag is on the access-descriptor entry of the new account; the
snapshots keep the original flags. -/
theorem c10_create_account_builder (m : Deser.Mem)
    (funder account lamports space : Nat) (owner : List Nat)
    (h : owner.length = 32) : C10Prop m funder account lamports space owner := by
  refine ⟨?_, ?_, ?_, ?_, ?_, rfl, rfl, rfl, rfl⟩
  · simp [create_account_signed, createAccountData, u64le, h]
  · rfl
  · rfl
  · rfl
  · show ([0, 0, 0, 0] ++ u64le lamports ++ u64le space ++ owner).drop 20 = owner
    rfl

/-- Witness for the amended C10 at concrete arguments. -/
theorem c10_create_account_builder_witness :
    (List.replicate 32 3 : List Nat).length = 32 ∧
    C10Prop memZero 0 200 5 7 (List.replicate 32 3) :=
  ⟨by decide,
   c10_create_account_builder memZero 0 200 5 7 (List.replicate 32 3) (by decide)⟩

end Cpi

end Nitrate
